import Mathlib

/-!
Shallow embedding of the photon-source and driver core of CMacIonize
(src/PhotonSource.cpp, src/CMacIonize.cpp, src/DensityGridInterface.hpp),
with theorems checking the natural-language specification against it.

Sampling-side code (photon budgets, cumulative source weights, channel
choice, inverse-CDF lookup) is embedded over `ℚ` so that everything is
executable; the reemission physics (which uses `pow`/`sqrt`) is embedded
over `ℝ`.
-/

namespace CMacIonize

/-! ## Photon budget state: `PhotonSource` members touched by
`PhotonSource::set_number_of_photons` (PhotonSource.cpp lines 128-179). -/

structure PhotonBudgetState where
  discreteLuminosity : ℚ
  continuousLuminosity : ℚ
  /-- `_discrete_weights.size()`, the number of discrete sources. -/
  numDiscreteSources : ℕ
  discreteNumberOfPhotons : ℕ
  continuousNumberOfPhotons : ℕ
  discretePhotonWeight : ℚ
  continuousPhotonWeight : ℚ
deriving Repr, DecidableEq

/-- First block of `PhotonSource::set_number_of_photons`
(PhotonSource.cpp lines 130-150): partition the requested number of
photons between the two channels.  `discrete_fraction` is the
hard-coded `0.5`; the C++ `discrete_fraction * number_of_photons`
truncates the double `0.5 * N` to `unsigned int`, which is `N / 2` in
natural-number division. -/
def partitionPhotons (s : PhotonBudgetState) (numberOfPhotons : ℕ) :
    PhotonBudgetState :=
  if 0 < s.discreteLuminosity ∧ 0 < s.continuousLuminosity then
    { s with
      discreteNumberOfPhotons := numberOfPhotons / 2
      continuousNumberOfPhotons := numberOfPhotons - numberOfPhotons / 2 }
  else if 0 < s.discreteLuminosity then
    { s with discreteNumberOfPhotons := numberOfPhotons }
  else
    { s with continuousNumberOfPhotons := numberOfPhotons }

/-- Second and third blocks of `PhotonSource::set_number_of_photons`
(PhotonSource.cpp lines 152-170): on each active channel enforce the
minimum photon count (10 per discrete source, 100 continuous) and set
the per-packet statistical weight `L / N`. -/
def enforceMinimaAndWeights (s : PhotonBudgetState) : PhotonBudgetState :=
  let s2 :=
    if 0 < s.discreteNumberOfPhotons then
      let nd := max s.discreteNumberOfPhotons (10 * s.numDiscreteSources)
      { s with
        discreteNumberOfPhotons := nd
        discretePhotonWeight := s.discreteLuminosity / (nd : ℚ) }
    else s
  if 0 < s2.continuousNumberOfPhotons then
    let nc := max s2.continuousNumberOfPhotons 100
    { s2 with
      continuousNumberOfPhotons := nc
      continuousPhotonWeight := s2.continuousLuminosity / (nc : ℚ) }
  else s2

/-- `PhotonSource::set_number_of_photons`, PhotonSource.cpp
lines 128-179: partition, then enforce minima and set weights.
Returns the updated state together with the function's return value
`_discrete_number_of_photons + _continuous_number_of_photons`. -/
def setNumberOfPhotons (s : PhotonBudgetState) (numberOfPhotons : ℕ) :
    PhotonBudgetState × ℕ :=
  let s3 := enforceMinimaAndWeights (partitionPhotons s numberOfPhotons)
  (s3, s3.discreteNumberOfPhotons + s3.continuousNumberOfPhotons)

/-! ## Channel choice and discrete-source lookup inside
`PhotonSource::get_random_photon` (PhotonSource.cpp lines 254-287). -/

/-- The `discrete` flag computed at PhotonSource.cpp lines 254-268:
when both photon counts are positive, a uniform draw `u` is compared
with the constant `0.5`; otherwise the channel with a positive count
is forced. -/
def chooseDiscrete (s : PhotonBudgetState) (u : ℚ) : Bool :=
  if 0 < s.discreteNumberOfPhotons then
    if 0 < s.continuousNumberOfPhotons then
      decide (u < 1/2)
    else
      true
  else
    false

/-- The inverse-CDF loop at PhotonSource.cpp lines 271-275:
`while (x > _discrete_probabilities[i]) ++i;` stops at the first index
`i` with `x ≤ _discrete_probabilities[i]`. -/
def inverseCDFIndex (probabilities : List ℚ) (x : ℚ) : ℕ :=
  probabilities.findIdx (fun p => decide (x ≤ p))

inductive Channel
  | discrete
  | continuous
deriving Repr, DecidableEq

/-- The channel-and-source selection of `PhotonSource::get_random_photon`
(PhotonSource.cpp lines 254-279): `u` is the draw used for the channel
choice, `x` the draw used for the inverse-CDF lookup on
`_discrete_probabilities`.  For the continuous channel the source index
is irrelevant (the continuous source is a single object); we return 0. -/
def samplePhotonOrigin (s : PhotonBudgetState) (probabilities : List ℚ)
    (u x : ℚ) : Channel × ℕ :=
  if chooseDiscrete s u then
    (Channel.discrete, inverseCDFIndex probabilities x)
  else
    (Channel.continuous, 0)

/-! ## `PhotonSource` constructor (PhotonSource.cpp lines 54-116):
cumulative weights, the 1e-9 abort check and the renormalisation. -/

/-- A discrete photon-source distribution
(`PhotonSourceDistribution` collaborator): positions, per-source
weights and the total luminosity. -/
structure SourceDistribution where
  positions : List (ℚ × ℚ × ℚ)
  weights : List ℚ
  totalLuminosity : ℚ
deriving Repr, DecidableEq

/-- Running cumulative sums starting from `acc`, mirroring the loop at
PhotonSource.cpp lines 72-81. -/
def cumulativeFrom (acc : ℚ) : List ℚ → List ℚ
  | [] => []
  | w :: ws => (acc + w) :: cumulativeFrom (acc + w) ws

/-- `_discrete_probabilities` as built by the constructor loop:
entry `i` is the sum of the weights up to and including `i`. -/
def cumulativeWeights (ws : List ℚ) : List ℚ :=
  cumulativeFrom 0 ws

/-- `v.back() = x` on a non-empty vector. -/
def setLast (l : List ℚ) (x : ℚ) : List ℚ :=
  l.set (l.length - 1) x

/-- State built by the `PhotonSource` constructor for a non-null
distribution (PhotonSource.cpp lines 54-116). -/
structure ConstructedSource where
  discretePositions : List (ℚ × ℚ × ℚ)
  discreteWeights : List ℚ
  discreteProbabilities : List ℚ
  discreteLuminosity : ℚ
  continuousLuminosity : ℚ
  totalLuminosity : ℚ
  discretePhotonWeight : ℚ
  continuousPhotonWeight : ℚ
deriving Repr, DecidableEq

/-- The `PhotonSource` constructor body for a non-null `distribution`
(PhotonSource.cpp lines 68-116).  `continuousLuminosity` stands for
`continuous_source->get_total_surface_area() *
continuous_spectrum->get_total_flux()` (0 when there is no continuous
source).  Aborts (`cmac_error`) when the cumulative weight differs from
1 by more than `1e-9`; otherwise forces the last cumulative
probability to exactly 1. -/
def constructPhotonSource (dist : SourceDistribution)
    (continuousLuminosity : ℚ) : Except String ConstructedSource :=
  if 1/1000000000 < |(cumulativeWeights dist.weights).getLastD 0 - 1| then
    Except.error "Discrete source weights do not sum to 1.0!"
  else
    Except.ok
      { discretePositions := dist.positions
        discreteWeights := dist.weights
        discreteProbabilities := setLast (cumulativeWeights dist.weights) 1
        discreteLuminosity := dist.totalLuminosity
        continuousLuminosity := continuousLuminosity
        totalLuminosity := dist.totalLuminosity + continuousLuminosity
        discretePhotonWeight := 1
        continuousPhotonWeight := 1 }

/-- Whether the constructor hits `cmac_error` (aborts the process). -/
def constructorAborts (dist : SourceDistribution)
    (continuousLuminosity : ℚ) : Bool :=
  match constructPhotonSource dist continuousLuminosity with
  | Except.error _ => true
  | Except.ok _ => false

/-! ## Startup configuration checks (CMacIonize.cpp lines 213-235). -/

/-- Which of the four source/spectrum collaborators were produced by
their factories (non-null pointers) at startup. -/
structure SourceConfig where
  hasSourceDistribution : Bool
  hasDiscreteSpectrum : Bool
  hasContinuousSource : Bool
  hasContinuousSpectrum : Bool
deriving Repr, DecidableEq

inductive StartupResult
  | aborted (msg : String)
  | continues (warnings : List String)
deriving Repr, DecidableEq

/-- The four configuration checks at CMacIonize.cpp lines 213-235, in
program order: `cmac_error` aborts immediately, `cmac_warning` records
a message and continues. -/
def checkSourceConfiguration (c : SourceConfig) : StartupResult :=
  if c.hasSourceDistribution && !c.hasDiscreteSpectrum then
    StartupResult.aborted "No spectrum provided for the discrete photon sources!"
  else
    let warnings1 : List String :=
      if !c.hasSourceDistribution && c.hasDiscreteSpectrum then
        ["Discrete photon source spectrum provided, but no discrete photon source distributions. The given spectrum will be ignored."]
      else []
    if c.hasContinuousSource && !c.hasContinuousSpectrum then
      StartupResult.aborted "No spectrum provided for the continuous photon sources!"
    else
      let warnings2 : List String :=
        if !c.hasContinuousSource && c.hasContinuousSpectrum then
          ["Continuous photon source spectrum provided, but no continuous photon source. The given spectrum will be ignored."]
        else []
      StartupResult.continues (warnings1 ++ warnings2)

/-- Whether the startup configuration check aborts the program. -/
def startupAborts (c : SourceConfig) : Bool :=
  match checkSourceConfiguration c with
  | StartupResult.aborted _ => true
  | StartupResult.continues _ => false

/-! ## Solver dispatch in the outer iteration
(CMacIonize.cpp lines 437-442). -/

inductive SolverKind
  | fixedTemperature
  | temperatureAndIonization
deriving Repr, DecidableEq

/-- The solver chosen for outer-loop index `loop`
(CMacIonize.cpp lines 437-442):
`if (calculate_temperature && loop > 3)` run
`temperature_calculator.calculate_temperature`, else run
`ionization_state_calculator.calculate_ionization_state`. -/
def solverForLoop (calculateTemperature : Bool) (loop : ℕ) : SolverKind :=
  if calculateTemperature && decide (3 < loop) then
    SolverKind.temperatureAndIonization
  else
    SolverKind.fixedTemperature

/-! ## Reemission probabilities
(`DensityGridInterface::set_reemission_probabilities`,
DensityGridInterface.hpp lines 58-76).  These use `pow` with real
exponents, so they are embedded over `ℝ` (with `Real.rpow`). -/

noncomputable def alpha1H (T : ℝ) : ℝ := 1.58e-13 * (T * 1.e-4) ^ (-0.53 : ℝ)

noncomputable def alphaAagn (T : ℝ) : ℝ := 4.18e-13 * (T * 1.e-4) ^ (-0.7 : ℝ)

/-- `cell.set_pHion(alpha_1_H / alpha_A_agn)`. -/
noncomputable def pHion (T : ℝ) : ℝ := alpha1H T / alphaAagn T

noncomputable def alpha1He (T : ℝ) : ℝ := 1.54e-13 * (T * 1.e-4) ^ (-0.486 : ℝ)

noncomputable def alphaE2tS (T : ℝ) : ℝ := 2.1e-13 * (T * 1.e-4) ^ (-0.381 : ℝ)

noncomputable def alphaE2sS (T : ℝ) : ℝ := 2.06e-14 * (T * 1.e-4) ^ (-0.451 : ℝ)

noncomputable def alphaE2sP (T : ℝ) : ℝ := 4.17e-14 * (T * 1.e-4) ^ (-0.695 : ℝ)

/-- `alphaHe` after the overwrite at DensityGridInterface.hpp line 70:
the sum of the four partial recombination coefficients. -/
noncomputable def alphaHe (T : ℝ) : ℝ :=
  alpha1He T + alphaE2tS T + alphaE2sS T + alphaE2sP T

/-- The cumulative helium reemission probabilities
`cell.set_pHe_em(0..3, ...)`, DensityGridInterface.hpp lines 72-75. -/
noncomputable def pHeEm (T : ℝ) : Fin 4 → ℝ
  | 0 => alpha1He T / alphaHe T
  | 1 => alpha1He T / alphaHe T + alphaE2tS T / alphaHe T
  | 2 => alpha1He T / alphaHe T + alphaE2tS T / alphaHe T +
      alphaE2sS T / alphaHe T
  | 3 => alpha1He T / alphaHe T + alphaE2tS T / alphaHe T +
      alphaE2sS T / alphaHe T + alphaE2sP T / alphaHe T

/-! ## Photons, cells and `PhotonSource::reemit`
(PhotonSource.cpp lines 317-417). -/

/-- The ions whose cross sections the reemission code reads
(`ION_H_n`, `ION_He_n` from ElementNames.hpp; the full enumeration also
tracks ions of C, N, O, Ne, S, none of which `reemit` reads). -/
inductive IonName
  | H_n
  | He_n
deriving Repr, DecidableEq

inductive PhotonType
  | primary
  | diffuseHI
  | diffuseHeI
  | absorbed
deriving Repr, DecidableEq

/-- A photon packet (Photon.hpp): position, direction, frequency
(`_energy`), type tag, statistical weight, the cached per-ion cross
sections and the helium-corrected cross section. -/
structure Photon where
  position : ℝ × ℝ × ℝ
  direction : ℝ × ℝ × ℝ
  energy : ℝ
  ptype : PhotonType
  weight : ℝ
  crossSection : IonName → ℝ
  crossSectionHeCorr : ℝ

/-- The per-cell values `reemit` reads (DensityValues.hpp): neutral
fractions of H and He, temperature, and the reemission probabilities. -/
structure DensityValues where
  ionicFractionHn : ℝ
  ionicFractionHen : ℝ
  temperature : ℝ
  pHionValue : ℝ
  pHeEmValue : Fin 4 → ℝ

/-- The external collaborators of `PhotonSource` that `reemit` and
`set_cross_sections` call into, modelled as functions:
`heliumAbundance` is `_abundances.get_abundance(ELEMENT_He)`;
`sigma ion nu` is `_cross_sections.get_cross_section(ion, nu)`;
`hLycSample T` / `heLycSample T` are
`_HLyc_spectrum.get_random_frequency(rng, T)` and
`_HeLyc_spectrum.get_random_frequency(rng, T)`;
`he2pcSampleAtT T` is `_He2pc_spectrum.get_random_frequency(rng, T)`
and `he2pcSampleDefault` is the overload
`_He2pc_spectrum.get_random_frequency(rng)` called without a
temperature (the spectra are temperature-dependent per the spec);
`newDirection` is the result of `get_random_direction(rng)`. -/
structure SourceModel where
  heliumAbundance : ℝ
  sigma : IonName → ℝ → ℝ
  hLycSample : ℝ → ℝ
  heLycSample : ℝ → ℝ
  he2pcSampleAtT : ℝ → ℝ
  he2pcSampleDefault : ℝ
  newDirection : ℝ × ℝ × ℝ

/-- `PhotonSource::set_cross_sections` (PhotonSource.cpp lines 211-219):
refresh every per-ion cross section from the table at the given energy,
then set the helium-corrected cross section from the freshly set
`ION_He_n` entry. -/
def setCrossSections (ps : SourceModel) (photon : Photon) (energy : ℝ) :
    Photon :=
  let p1 := { photon with crossSection := fun ion => ps.sigma ion energy }
  { p1 with
    crossSectionHeCorr := ps.heliumAbundance * p1.crossSection IonName.He_n }

/-- The hydrogen-absorption probability computed at
PhotonSource.cpp lines 321-325 (note the C++ `a / b / c` chain). -/
noncomputable def pHabs (ps : SourceModel) (photon : Photon)
    (cell : DensityValues) : ℝ :=
  1 / (1 +
      cell.ionicFractionHen * ps.heliumAbundance *
          photon.crossSection IonName.He_n /
          cell.ionicFractionHn /
          photon.crossSection IonName.H_n)

/-- The on-the-spot probability computed at
PhotonSource.cpp lines 368-371. -/
noncomputable def pHots (cell : DensityValues) : ℝ :=
  1 / (1 +
      77 * cell.ionicFractionHen / Real.sqrt cell.temperature /
        cell.ionicFractionHn)

/-- The common tail of every successful `reemit` branch
(PhotonSource.cpp lines 409-416): store the new frequency, draw a new
isotropic direction and rebuild the cross-section cache; the type tag
was already set inside the branch. -/
def finishReemit (ps : SourceModel) (photon : Photon)
    (newFrequency : ℝ) (t : PhotonType) : Photon :=
  setCrossSections ps
    { photon with
      ptype := t
      energy := newFrequency
      direction := ps.newDirection }
    newFrequency

/-- `PhotonSource::reemit` (PhotonSource.cpp lines 317-417).
`u1 u2 u3 u4` are the results of the successive
`random_generator.get_uniform_random_double()` calls, in the order the
code makes them (at most four calls happen on any path).  Returns the
C++ return value together with the photon as left by the routine. -/
noncomputable def reemit (ps : SourceModel) (photon : Photon)
    (cell : DensityValues) (u1 u2 u3 u4 : ℝ) : Bool × Photon :=
  if u1 ≤ pHabs ps photon cell then
    -- photon absorbed by hydrogen
    if u2 ≤ cell.pHionValue then
      (true,
        finishReemit ps photon (ps.hLycSample cell.temperature)
          PhotonType.diffuseHI)
    else
      (false, { photon with ptype := PhotonType.absorbed })
  else
    -- photon absorbed by helium
    if u2 ≤ cell.pHeEmValue 0 then
      (true,
        finishReemit ps photon (ps.heLycSample cell.temperature)
          PhotonType.diffuseHeI)
    else if u2 ≤ cell.pHeEmValue 1 then
      -- new frequency is 19.8eV
      (true, finishReemit ps photon 4.788e15 PhotonType.diffuseHeI)
    else if u2 ≤ cell.pHeEmValue 2 then
      if u3 < 0.56 then
        (true,
          finishReemit ps photon (ps.he2pcSampleAtT cell.temperature)
            PhotonType.diffuseHeI)
      else
        (false, { photon with ptype := PhotonType.absorbed })
    else if u2 ≤ cell.pHeEmValue 3 then
      if u3 < pHots cell then
        -- absorbed on the spot
        if u4 ≤ cell.pHionValue then
          (true,
            finishReemit ps photon (ps.hLycSample cell.temperature)
              PhotonType.diffuseHI)
        else
          (false, { photon with ptype := PhotonType.absorbed })
      else
        -- He 2-photon continuum; note: the frequency is sampled WITHOUT
        -- the cell temperature (PhotonSource.cpp line 391-392)
        if u4 < 0.56 then
          (true,
            finishReemit ps photon ps.he2pcSampleDefault
              PhotonType.diffuseHeI)
        else
          (false, { photon with ptype := PhotonType.absorbed })
    else
      (false, { photon with ptype := PhotonType.absorbed })

/-- A cell as seen by the solver: its temperature and (abstractly) its
ionic-fraction data. -/
structure SolverCell where
  temperature : ℚ
  ionicData : ℚ
deriving Repr, DecidableEq

/-- Modelled from the spec: the body of
`IonizationStateCalculator::calculate_ionization_state` is not under
src/; per the spec it "solves ionization balance for each element" at
the cell's current temperature, so it updates the ionic data and leaves
the temperature unchanged.  The actual per-cell update is abstracted as
the parameter `solve`. -/
def fixedTemperatureSolve (solve : SolverCell → ℚ) (c : SolverCell) :
    SolverCell :=
  { c with ionicData := solve c }

/-! ## Supporting lemmas -/

lemma cumulativeFrom_length (acc : ℚ) (ws : List ℚ) :
    (cumulativeFrom acc ws).length = ws.length := by
  induction ws generalizing acc with
  | nil => rfl
  | cons w ws ih => simp [cumulativeFrom, ih]

lemma cumulativeFrom_getLastD (ws : List ℚ) :
    ∀ (acc w d : ℚ),
      (cumulativeFrom acc (w :: ws)).getLastD d = acc + w + ws.sum := by
  induction ws with
  | nil => intro acc w d; simp [cumulativeFrom]
  | cons w' ws' ih =>
    intro acc w d
    rw [cumulativeFrom, cumulativeFrom]
    rw [List.getLastD_cons, ← cumulativeFrom, ih]
    simp [List.sum_cons]
    ring

lemma cumulativeWeights_getLastD (w : ℚ) (ws : List ℚ) (d : ℚ) :
    (cumulativeWeights (w :: ws)).getLastD d = (w :: ws).sum := by
  rw [cumulativeWeights, cumulativeFrom_getLastD]
  simp [List.sum_cons]

lemma cumulativeWeights_length (ws : List ℚ) :
    (cumulativeWeights ws).length = ws.length :=
  cumulativeFrom_length 0 ws

lemma setLast_length (l : List ℚ) (x : ℚ) :
    (setLast l x).length = l.length := by
  simp [setLast]

lemma setLast_get?_of_lt (l : List ℚ) (x : ℚ) (i : ℕ)
    (h : i + 1 < l.length) : (setLast l x).get? i = l.get? i := by
  rw [setLast]
  rw [List.get?_eq_getElem?, List.get?_eq_getElem?]
  rw [List.getElem?_set_ne]
  omega

lemma setLast_getLastD (l : List ℚ) (x : ℚ) (h : l ≠ []) :
    ∀ d, (setLast l x).getLastD d = x := by
  induction l with
  | nil => exact absurd rfl h
  | cons a l ih =>
    intro d
    cases l with
    | nil => simp [setLast]
    | cons b l' =>
      have hne : (b :: l') ≠ [] := by simp
      rw [setLast]
      simp only [List.length_cons]
      have hidx : l'.length + 1 + 1 - 1 = l'.length + 1 := by omega
      rw [hidx, List.set_cons_succ, List.getLastD_cons]
      have hrec := ih hne a
      rw [setLast] at hrec
      simp only [List.length_cons] at hrec
      simpa using hrec

lemma enforceMinimaAndWeights_discrete (s : PhotonBudgetState)
    (h : 0 < s.discreteNumberOfPhotons) :
    (enforceMinimaAndWeights s).discreteNumberOfPhotons =
        max s.discreteNumberOfPhotons (10 * s.numDiscreteSources) ∧
      (enforceMinimaAndWeights s).discretePhotonWeight =
        s.discreteLuminosity /
          ((max s.discreteNumberOfPhotons (10 * s.numDiscreteSources) : ℕ) :
            ℚ) := by
  rw [enforceMinimaAndWeights]
  simp only [if_pos h]
  split_ifs <;> simp

lemma enforceMinimaAndWeights_continuous (s : PhotonBudgetState)
    (h : 0 < s.continuousNumberOfPhotons) :
    (enforceMinimaAndWeights s).continuousNumberOfPhotons =
        max s.continuousNumberOfPhotons 100 ∧
      (enforceMinimaAndWeights s).continuousPhotonWeight =
        s.continuousLuminosity /
          ((max s.continuousNumberOfPhotons 100 : ℕ) : ℚ) := by
  rw [enforceMinimaAndWeights]
  split_ifs <;> simp_all

lemma partitionPhotons_preserves (s : PhotonBudgetState) (n : ℕ) :
    (partitionPhotons s n).discreteLuminosity = s.discreteLuminosity ∧
      (partitionPhotons s n).continuousLuminosity =
        s.continuousLuminosity ∧
      (partitionPhotons s n).numDiscreteSources = s.numDiscreteSources := by
  rw [partitionPhotons]
  split_ifs <;> simp

/-! ## Claim theorems -/

/-- C1 counterexample: after `set_number_of_photons(100)` on a source
with one discrete source and both luminosities equal to 1, the photon
counts are `N_d = 50` and `N_c = 100` (continuous minimum enforced), so
`N_d/(N_d+N_c) = 1/3`; yet at the uniform draw `u = 2/5 ∈ [0,1)` the
code chooses the discrete channel (`2/5 < 0.5`) although `2/5 ≥ 1/3`:
the discrete channel is NOT chosen with probability `N_d/(N_d+N_c)`. -/
theorem c1_fixed_half_counterexample :
    (setNumberOfPhotons ⟨1, 1, 1, 0, 0, 1, 1⟩ 100).1.discreteNumberOfPhotons
        = 50 ∧
      (setNumberOfPhotons
          ⟨1, 1, 1, 0, 0, 1, 1⟩ 100).1.continuousNumberOfPhotons = 100 ∧
      (0 : ℚ) ≤ 2/5 ∧ (2/5 : ℚ) < 1 ∧
      chooseDiscrete (setNumberOfPhotons ⟨1, 1, 1, 0, 0, 1, 1⟩ 100).1 (2/5)
        = true ∧
      ¬((2/5 : ℚ) < (50 : ℚ) / (50 + 100)) := by
  have hd :
      (setNumberOfPhotons
          ⟨1, 1, 1, 0, 0, 1, 1⟩ 100).1.discreteNumberOfPhotons = 50 := by
    decide
  have hc :
      (setNumberOfPhotons
          ⟨1, 1, 1, 0, 0, 1, 1⟩ 100).1.continuousNumberOfPhotons = 100 := by
    decide
  refine ⟨hd, hc, by norm_num, by norm_num, ?_, by norm_num⟩
  rw [chooseDiscrete, hd, hc]
  norm_num

/-- C1 (amended): when both photon counts are positive the discrete
channel is chosen exactly when the uniform draw is below the fixed
threshold `0.5` (probability 1/2, independent of the photon counts);
when only one channel has a positive count that channel is always
chosen; and on the discrete channel the source index is the inverse-CDF
lookup: the first index whose cumulative probability is `≥ x`, every
earlier cumulative probability being `< x`. -/
theorem c1_channel_choice (s : PhotonBudgetState) (probs : List ℚ)
    (u x : ℚ) :
    (0 < s.discreteNumberOfPhotons → 0 < s.continuousNumberOfPhotons →
        chooseDiscrete s u = decide (u < 1/2)) ∧
      (0 < s.discreteNumberOfPhotons → s.continuousNumberOfPhotons = 0 →
        chooseDiscrete s u = true) ∧
      (s.discreteNumberOfPhotons = 0 → chooseDiscrete s u = false) ∧
      (chooseDiscrete s u = true →
        samplePhotonOrigin s probs u x =
          (Channel.discrete, inverseCDFIndex probs x)) ∧
      (chooseDiscrete s u = false →
        (samplePhotonOrigin s probs u x).1 = Channel.continuous) ∧
      (∀ j, j < inverseCDFIndex probs x →
        ∃ p, probs.get? j = some p ∧ p < x) := by
  refine ⟨?_, ?_, ?_, ?_, ?_, ?_⟩
  · intro h1 h2
    rw [chooseDiscrete, if_pos h1, if_pos h2]
  · intro h1 h2
    rw [chooseDiscrete, if_pos h1, if_neg (by omega)]
  · intro h1
    rw [chooseDiscrete, if_neg (by omega)]
  · intro h
    rw [samplePhotonOrigin, if_pos h]
  · intro h
    rw [samplePhotonOrigin, if_neg (by simp [h])]
  · intro j hj
    have hjlen : j < probs.length :=
      Nat.lt_of_lt_of_le hj (List.findIdx_le_length _)
    have hfalse := List.not_of_lt_findIdx hj
    refine ⟨probs[j], by simp [List.get?_eq_getElem?, hjlen], ?_⟩
    simpa using hfalse

/-- C1 witness: a state with both counts positive, evaluated at
`u = 2/5`. -/
theorem c1_channel_choice_witness :
    0 < (50 : ℕ) ∧ 0 < (100 : ℕ) ∧
      chooseDiscrete ⟨1, 1, 1, 50, 100, 1, 1⟩ (2/5) =
        decide ((2/5 : ℚ) < 1/2) :=
  ⟨by decide, by decide,
    (c1_channel_choice ⟨1, 1, 1, 50, 100, 1, 1⟩ [] (2/5) 0).1
      (by decide) (by decide)⟩

/-- C3 counterexample: a configuration with a continuous spectrum but
no continuous source does NOT abort; the program only records a warning
and continues (CMacIonize.cpp lines 231-235 use `cmac_warning`, not
`cmac_error`). -/
theorem c3_continuous_spectrum_only_warns :
    startupAborts ⟨false, false, false, true⟩ = false ∧
      checkSourceConfiguration ⟨false, false, false, true⟩ =
        StartupResult.continues
          ["Continuous photon source spectrum provided, but no continuous photon source. The given spectrum will be ignored."] := by
  constructor <;> rfl

/-- C3 (amended): the startup check aborts exactly when discrete
sources are configured without a discrete spectrum, or a continuous
SOURCE is configured without a continuous spectrum; a continuous
spectrum without a continuous source (like a discrete spectrum without
discrete sources) only triggers a warning and the program continues. -/
theorem c3_startup_abort_characterization (c : SourceConfig) :
    startupAborts c =
      (c.hasSourceDistribution && !c.hasDiscreteSpectrum ||
        c.hasContinuousSource && !c.hasContinuousSpectrum) := by
  obtain ⟨a, b, d, e⟩ := c
  cases a <;> cases b <;> cases d <;> cases e <;> rfl

/-- C7: with `calculate_temperature = true` the driver runs the
fixed-temperature ionization solver (which leaves the cell temperature
unchanged) on every outer iteration with loop index 0 through 3, and
the combined temperature-and-ionization solver on every iteration with
loop index 4 or greater (CMacIonize.cpp lines 437-442). -/
theorem c7_warmup_switchover (loop : ℕ) :
    (loop ≤ 3 →
        solverForLoop true loop = SolverKind.fixedTemperature ∧
          ∀ (solve : SolverCell → ℚ) (c : SolverCell),
            (fixedTemperatureSolve solve c).temperature = c.temperature) ∧
      (4 ≤ loop →
        solverForLoop true loop = SolverKind.temperatureAndIonization) := by
  constructor
  · intro h
    refine ⟨?_, fun solve c => rfl⟩
    have hn : ¬ 3 < loop := by omega
    simp [solverForLoop, hn]
  · intro h
    have hp : 3 < loop := by omega
    simp [solverForLoop, hp]

/-- C7 witness: loop 2 runs the fixed-temperature solver, loop 5 the
combined solver. -/
theorem c7_warmup_switchover_witness :
    (2 ≤ 3 ∧ solverForLoop true 2 = SolverKind.fixedTemperature) ∧
      4 ≤ 5 ∧ solverForLoop true 5 = SolverKind.temperatureAndIonization :=
  ⟨⟨by decide, ((c7_warmup_switchover 2).1 (by decide)).1⟩,
    by decide, (c7_warmup_switchover 5).2 (by decide)⟩

/-- C8: `set_number_of_photons(N)` partitions `N` as `⌊N/2⌋` discrete
plus remainder when both luminosities are positive (summing to `N`
before minimum enforcement), gives everything to the one active channel
otherwise, then enforces the per-channel minimums (10 per discrete
source, 100 continuous) on each active channel, sets the per-packet
weights `L/N` on each active channel, and returns the sum of the two
final counts. -/
theorem c8_photon_budget (s : PhotonBudgetState) (n : ℕ) :
    (0 < s.discreteLuminosity → 0 < s.continuousLuminosity →
        (partitionPhotons s n).discreteNumberOfPhotons = n / 2 ∧
          (partitionPhotons s n).continuousNumberOfPhotons = n - n / 2 ∧
          (partitionPhotons s n).discreteNumberOfPhotons +
              (partitionPhotons s n).continuousNumberOfPhotons = n) ∧
      (0 < s.discreteLuminosity → ¬ 0 < s.continuousLuminosity →
        (partitionPhotons s n).discreteNumberOfPhotons = n) ∧
      (¬ 0 < s.discreteLuminosity →
        (partitionPhotons s n).continuousNumberOfPhotons = n) ∧
      (0 < (partitionPhotons s n).discreteNumberOfPhotons →
        (setNumberOfPhotons s n).1.discreteNumberOfPhotons =
            max (partitionPhotons s n).discreteNumberOfPhotons
              (10 * s.numDiscreteSources) ∧
          (setNumberOfPhotons s n).1.discretePhotonWeight =
            s.discreteLuminosity /
              (((setNumberOfPhotons s n).1.discreteNumberOfPhotons : ℕ) :
                ℚ)) ∧
      (0 < (partitionPhotons s n).continuousNumberOfPhotons →
        (setNumberOfPhotons s n).1.continuousNumberOfPhotons =
            max (partitionPhotons s n).continuousNumberOfPhotons 100 ∧
          (setNumberOfPhotons s n).1.continuousPhotonWeight =
            s.continuousLuminosity /
              (((setNumberOfPhotons s n).1.continuousNumberOfPhotons : ℕ) :
                ℚ)) ∧
      (setNumberOfPhotons s n).2 =
        (setNumberOfPhotons s n).1.discreteNumberOfPhotons +
          (setNumberOfPhotons s n).1.continuousNumberOfPhotons := by
  obtain ⟨hld, hlc, hns⟩ := partitionPhotons_preserves s n
  refine ⟨?_, ?_, ?_, ?_, ?_, rfl⟩
  · intro h1 h2
    rw [partitionPhotons, if_pos ⟨h1, h2⟩]
    refine ⟨rfl, rfl, ?_⟩
    simp only
    omega
  · intro h1 h2
    rw [partitionPhotons, if_neg (by tauto), if_pos h1]
  · intro h1
    rw [partitionPhotons, if_neg (by tauto), if_neg h1]
  · intro h
    obtain ⟨he1, he2⟩ :=
      enforceMinimaAndWeights_discrete (partitionPhotons s n) h
    rw [setNumberOfPhotons]
    simp only
    rw [he1, he2, hld, hns]
    exact ⟨rfl, rfl⟩
  · intro h
    obtain ⟨he1, he2⟩ :=
      enforceMinimaAndWeights_continuous (partitionPhotons s n) h
    rw [setNumberOfPhotons]
    simp only
    rw [he1, he2, hlc]
    exact ⟨rfl, rfl⟩

/-- C8 witness: both luminosities 1, one discrete source, `N = 100`:
the partition is 50/50, the continuous minimum raises `N_c` to 100,
`w_d = 1/50`, `w_c = 1/100`, and the call returns 150. -/
theorem c8_photon_budget_witness :
    (0 : ℚ) < 1 ∧
      (partitionPhotons ⟨1, 1, 1, 0, 0, 1, 1⟩ 100).discreteNumberOfPhotons
          = 50 ∧
      (partitionPhotons ⟨1, 1, 1, 0, 0, 1, 1⟩ 100).continuousNumberOfPhotons
          = 50 ∧
      (setNumberOfPhotons
          ⟨1, 1, 1, 0, 0, 1, 1⟩ 100).1.continuousNumberOfPhotons = 100 ∧
      (setNumberOfPhotons ⟨1, 1, 1, 0, 0, 1, 1⟩ 100).2 = 150 := by
  have h := c8_photon_budget ⟨1, 1, 1, 0, 0, 1, 1⟩ 100
  obtain ⟨hd, hc, -⟩ := h.1 (by decide) (by decide)
  refine ⟨by decide, hd, hc, ?_, ?_⟩ <;> decide

/-- C4: for a non-empty discrete source distribution the constructor
aborts if and only if the cumulative weight sum differs from 1 by more
than `1e-9`; otherwise it sets the last cumulative probability to
exactly 1 and every other piece of constructed state (positions,
weights, luminosities, the earlier cumulative probabilities) is exactly
what it was before the renormalisation. -/
theorem c4_constructor_renormalisation (dist : SourceDistribution)
    (contLum : ℚ) (hne : dist.weights ≠ []) :
    (constructorAborts dist contLum = true ↔
        1/1000000000 < |dist.weights.sum - 1|) ∧
      ∀ st, constructPhotonSource dist contLum = Except.ok st →
        st.discreteProbabilities =
            setLast (cumulativeWeights dist.weights) 1 ∧
          st.discreteProbabilities.getLastD 0 = 1 ∧
          st.discreteProbabilities.length = dist.weights.length ∧
          st.discretePositions = dist.positions ∧
          st.discreteWeights = dist.weights ∧
          st.discreteLuminosity = dist.totalLuminosity ∧
          st.continuousLuminosity = contLum ∧
          st.totalLuminosity = dist.totalLuminosity + contLum ∧
          ∀ i, i + 1 < dist.weights.length →
            st.discreteProbabilities.get? i =
              (cumulativeWeights dist.weights).get? i := by
  obtain ⟨w, ws, hw⟩ := List.exists_cons_of_ne_nil hne
  have hsum : (cumulativeWeights dist.weights).getLastD 0 =
      dist.weights.sum := by
    rw [hw, cumulativeWeights_getLastD]
  have hcne : cumulativeWeights dist.weights ≠ [] := by
    rw [hw, cumulativeWeights, cumulativeFrom]
    simp
  constructor
  · rw [← hsum]
    constructor
    · intro hab
      by_contra hnabs
      unfold constructorAborts at hab
      rw [constructPhotonSource, if_neg hnabs] at hab
      simp at hab
    · intro habs
      unfold constructorAborts
      rw [constructPhotonSource, if_pos habs]
  · intro st hok
    by_cases habs :
        1/1000000000 < |(cumulativeWeights dist.weights).getLastD 0 - 1|
    · rw [constructPhotonSource, if_pos habs] at hok
      exact absurd hok (by simp)
    · rw [constructPhotonSource, if_neg habs] at hok
      have hst := (Except.ok.inj hok).symm
      subst hst
      refine ⟨rfl, setLast_getLastD _ 1 hcne 0, ?_, rfl, rfl, rfl, rfl,
        rfl, ?_⟩
      · rw [setLast_length, cumulativeWeights_length]
      · intro i hi
        exact setLast_get?_of_lt _ 1 i
          (by rw [cumulativeWeights_length]; exact hi)

/-- C4 witness: weights `[1/2, 1/2]` sum to exactly 1, the constructor
does not abort, and the constructed probabilities are `[1/2, 1]`. -/
theorem c4_constructor_witness :
    (([(1:ℚ)/2, 1/2] : List ℚ) ≠ []) ∧
      ¬(1/1000000000 < |([(1:ℚ)/2, 1/2]).sum - 1|) ∧
      constructorAborts ⟨[(0, 0, 0)], [1/2, 1/2], 5⟩ 0 = false := by
  have h := c4_constructor_renormalisation ⟨[(0, 0, 0)], [1/2, 1/2], 5⟩ 0
    (by simp)
  refine ⟨by simp, by norm_num [List.sum_cons, List.sum_nil], ?_⟩
  by_cases hb : constructorAborts ⟨[(0, 0, 0)], [1/2, 1/2], 5⟩ 0 = true
  · exact absurd (h.1.mp hb) (by norm_num [List.sum_cons, List.sum_nil])
  · simpa using hb

/-- C9: under the constructor's postcondition (cumulative probabilities
non-decreasing with last entry exactly 1), the inverse-CDF loop stops
at an index strictly below the number of discrete sources for every
uniform draw `x ∈ [0,1)`, so the subsequent position lookup (the
positions array has the same length) is in bounds. -/
theorem c9_inverse_cdf_in_bounds (probs : List ℚ)
    (positions : List (ℚ × ℚ × ℚ)) (x : ℚ) (hne : probs ≠ [])
    (hmono : probs.Chain' (· ≤ ·)) (hlast : probs.getLastD 0 = 1)
    (hlen : positions.length = probs.length) (hx0 : 0 ≤ x) (hx1 : x < 1) :
    inverseCDFIndex probs x < probs.length ∧
      inverseCDFIndex probs x < positions.length := by
  have hmem : probs.getLast hne ∈ probs := List.getLast_mem hne
  have hlast1 : probs.getLast hne = 1 := by
    have hq := List.getLastD_eq_getLast? 0 probs
    rw [List.getLast?_eq_getLast probs hne] at hq
    simp only [Option.getD_some] at hq
    rw [← hq, hlast]
  have hexists : ∃ p ∈ probs, (fun p => decide (x ≤ p)) p = true := by
    refine ⟨probs.getLast hne, hmem, ?_⟩
    rw [hlast1]
    simpa using le_of_lt hx1
  have hidx : inverseCDFIndex probs x < probs.length :=
    List.findIdx_lt_length_of_exists hexists
  exact ⟨hidx, by omega⟩

/-- C9 witness: cumulative probabilities `[1/2, 1]`, draw `x = 3/4`:
the lookup index is in bounds. -/
theorem c9_inverse_cdf_witness :
    ([(1:ℚ)/2, 1] ≠ []) ∧ List.Chain' (· ≤ ·) [(1:ℚ)/2, 1] ∧
      ([(1:ℚ)/2, 1].getLastD 0 = 1) ∧ (0:ℚ) ≤ 3/4 ∧ (3/4:ℚ) < 1 ∧
      inverseCDFIndex [(1:ℚ)/2, 1] (3/4) < 2 := by
  have hch : List.Chain' (· ≤ ·) [(1:ℚ)/2, 1] := by
    simp only [List.chain'_cons, List.chain'_singleton, and_true]
    norm_num
  refine ⟨by simp, hch, rfl, by norm_num, by norm_num, ?_⟩
  simpa using
    (c9_inverse_cdf_in_bounds [(1:ℚ)/2, 1] [(0, 0, 0), (1, 1, 1)] (3/4)
      (by simp) hch rfl rfl (by norm_num) (by norm_num)).1

/-- `pHion T` in closed form for positive `T`. -/
lemma pHion_eq (T : ℝ) (hT : 0 < T) :
    pHion T = 79/209 * (T * 1e-4) ^ (0.17 : ℝ) := by
  have hx : (0:ℝ) < T * 1e-4 := by positivity
  rw [pHion, alpha1H, alphaAagn, mul_div_mul_comm, ← Real.rpow_sub hx]
  have he : (-0.53 : ℝ) - -0.7 = 0.17 := by norm_num
  rw [he]
  norm_num

/-- C2 counterexample: at `T = 10¹⁰ K > 0` the computed `p_Hion`
exceeds 1, so `p_Hion ∈ (0,1)` does NOT hold for every `T > 0`. -/
theorem c2_pHion_counterexample : (0:ℝ) < 1e10 ∧ 1 < pHion 1e10 := by
  refine ⟨by norm_num, ?_⟩
  rw [pHion_eq 1e10 (by norm_num)]
  have h1 : (1e10:ℝ) * 1e-4 = 10 ^ ((6:ℕ):ℝ) := by
    rw [Real.rpow_natCast]
    norm_num
  rw [h1, ← Real.rpow_mul (by norm_num : (0:ℝ) ≤ 10)]
  have h2 : ((6:ℕ):ℝ) * 0.17 = 1.02 := by norm_num
  rw [h2]
  have h3 : (10:ℝ) ^ (1:ℝ) < 10 ^ (1.02:ℝ) :=
    (Real.rpow_lt_rpow_left_iff (by norm_num)).mpr (by norm_num)
  rw [Real.rpow_one] at h3
  nlinarith [h3]

/-- C2 (amended): for every `T > 0` the four-entry vector `p_He_em` is
monotone non-decreasing and its last entry equals 1 exactly, and
`p_Hion > 0`; moreover `p_Hion < 1` holds on the physical range
`T ≤ 10⁶ K` (but not for arbitrarily large `T`, where `p_Hion ≥ 1`). -/
theorem c2_reemission_probabilities (T : ℝ) (hT : 0 < T) :
    Monotone (pHeEm T) ∧ pHeEm T 3 = 1 ∧ 0 < pHion T ∧
      (T ≤ 1e6 → pHion T < 1) := by
  have hx : (0:ℝ) < T * 1e-4 := by positivity
  have h1 : 0 < alpha1He T := by
    rw [alpha1He]; positivity
  have h2 : 0 < alphaE2tS T := by
    rw [alphaE2tS]; positivity
  have h3 : 0 < alphaE2sS T := by
    rw [alphaE2sS]; positivity
  have h4 : 0 < alphaE2sP T := by
    rw [alphaE2sP]; positivity
  have hs : 0 < alphaHe T := by
    rw [alphaHe]; linarith
  have hb : 0 ≤ alphaE2tS T / alphaHe T := le_of_lt (div_pos h2 hs)
  have hc : 0 ≤ alphaE2sS T / alphaHe T := le_of_lt (div_pos h3 hs)
  have hd : 0 ≤ alphaE2sP T / alphaHe T := le_of_lt (div_pos h4 hs)
  refine ⟨?_, ?_, ?_, ?_⟩
  · intro i j hij
    fin_cases i <;> fin_cases j <;>
      first
        | exact absurd hij (by decide)
        | (simp only [pHeEm]; linarith)
  · simp only [pHeEm]
    rw [div_add_div_same, div_add_div_same, div_add_div_same]
    rw [show alpha1He T + alphaE2tS T + alphaE2sS T + alphaE2sP T =
      alphaHe T from rfl]
    exact div_self (ne_of_gt hs)
  · have ha1 : 0 < alpha1H T := by
      rw [alpha1H]; positivity
    have ha2 : 0 < alphaAagn T := by
      rw [alphaAagn]; positivity
    exact div_pos ha1 ha2
  · intro hT6
    rw [pHion_eq T hT]
    have hxle : T * 1e-4 ≤ 100 := by linarith
    have hle1 : (T * 1e-4) ^ (0.17:ℝ) ≤ (100:ℝ) ^ (0.17:ℝ) :=
      Real.rpow_le_rpow (le_of_lt hx) hxle (by norm_num)
    have heq2 : (100:ℝ) ^ (0.17:ℝ) = (10:ℝ) ^ (0.34:ℝ) := by
      rw [show (100:ℝ) = 10 ^ ((2:ℕ):ℝ) by rw [Real.rpow_natCast]; norm_num]
      rw [← Real.rpow_mul (by norm_num : (0:ℝ) ≤ 10)]
      norm_num
    have hlt3 : (10:ℝ) ^ (0.34:ℝ) < 209/79 := by
      by_contra hcon
      push_neg at hcon
      have hpow := pow_le_pow_left₀ (by norm_num : (0:ℝ) ≤ 209/79) hcon 50
      have hval : ((10:ℝ) ^ (0.34:ℝ)) ^ (50:ℕ) = (10:ℝ) ^ (17:ℕ) := by
        rw [← Real.rpow_natCast ((10:ℝ) ^ (0.34:ℝ)) 50,
          ← Real.rpow_mul (by norm_num : (0:ℝ) ≤ 10)]
        rw [show (0.34:ℝ) * ((50:ℕ):ℝ) = ((17:ℕ):ℝ) by norm_num]
        rw [Real.rpow_natCast]
      rw [hval] at hpow
      norm_num at hpow
    calc 79/209 * (T * 1e-4) ^ (0.17:ℝ)
        ≤ 79/209 * (10:ℝ) ^ (0.34:ℝ) := by
          rw [← heq2]; nlinarith [hle1]
      _ < 79/209 * (209/79) := by nlinarith [hlt3]
      _ = 1 := by norm_num

/-- C2 witness: at `T = 10⁴ K` the amended properties hold. -/
theorem c2_reemission_witness :
    (0:ℝ) < 1e4 ∧ (1e4:ℝ) ≤ 1e6 ∧ pHeEm 1e4 3 = 1 ∧ 0 < pHion 1e4 ∧
      pHion 1e4 < 1 := by
  have h := c2_reemission_probabilities 1e4 (by norm_num)
  exact ⟨by norm_num, by norm_num, h.2.1, h.2.2.1, h.2.2.2 (by norm_num)⟩

/-! ## Concrete instances used to evaluate `reemit` -/

/-- Concrete collaborator model: the spectra samplers are distinct,
temperature-sensitive functions so that which sampler is called (and
with which temperature) is observable from the sampled frequency. -/
noncomputable def exampleModel : SourceModel :=
  { heliumAbundance := 1
    sigma := fun _ _ => 1
    hLycSample := fun _ => 2
    heLycSample := fun _ => 3
    he2pcSampleAtT := fun t => t + 1000
    he2pcSampleDefault := 7
    newDirection := (1, 0, 0) }

noncomputable def examplePhoton : Photon :=
  { position := (0, 0, 0)
    direction := (0, 0, 1)
    energy := 1
    ptype := PhotonType.primary
    weight := 1
    crossSection := fun _ => 1
    crossSectionHeCorr := 1 }

/-- Concrete cumulative `p_He_em` vector `(0, 0, 1/2, 1)`: draws in
`(0, 1/2]` take the 2-photon-continuum branch, draws in `(1/2, 1]` the
He Lyman-alpha branch. -/
noncomputable def exampleHeEm : Fin 4 → ℝ
  | 0 => 0
  | 1 => 0
  | 2 => 1/2
  | 3 => 1

noncomputable def exampleCell : DensityValues :=
  { ionicFractionHn := 1
    ionicFractionHen := 1
    temperature := 1
    pHionValue := 1/2
    pHeEmValue := exampleHeEm }

/-- C5: the hydrogen-absorption probability equals the claimed closed
form `1 / (1 + x_Hen·A_He·σ_He / (x_Hn·σ_H))`, and whenever the first
uniform draw is at most `p_Habs`, `reemit` either (second draw at most
`p_Hion`) re-types the photon `DIFFUSE_HI` with a frequency sampled
from the H-Lyman-continuum spectrum at the cell temperature and returns
true, or (otherwise) re-types it `ABSORBED` and returns false. -/
theorem c5_hydrogen_branch (ps : SourceModel) (photon : Photon)
    (cell : DensityValues) (u1 u2 u3 u4 : ℝ) :
    pHabs ps photon cell =
        1 / (1 +
          cell.ionicFractionHen * ps.heliumAbundance *
            photon.crossSection IonName.He_n /
            (cell.ionicFractionHn * photon.crossSection IonName.H_n)) ∧
      (u1 ≤ pHabs ps photon cell →
        (u2 ≤ cell.pHionValue →
            (reemit ps photon cell u1 u2 u3 u4).1 = true ∧
              (reemit ps photon cell u1 u2 u3 u4).2.ptype =
                PhotonType.diffuseHI ∧
              (reemit ps photon cell u1 u2 u3 u4).2.energy =
                ps.hLycSample cell.temperature) ∧
          (¬ u2 ≤ cell.pHionValue →
            (reemit ps photon cell u1 u2 u3 u4).1 = false ∧
              (reemit ps photon cell u1 u2 u3 u4).2.ptype =
                PhotonType.absorbed)) := by
  constructor
  · rw [pHabs, div_div]
  · intro h1
    constructor
    · intro h2
      rw [reemit, if_pos h1, if_pos h2]
      exact ⟨rfl, rfl, rfl⟩
    · intro h2
      rw [reemit, if_pos h1, if_neg h2]
      exact ⟨rfl, rfl⟩

/-- C5 witness: in `exampleCell` (all fractions and cross sections 1,
`A_He = 1`), `p_Habs = 1/2`; the draws `u₁ = u₂ = 0` land in the
H-absorption, reemission sub-branch. -/
theorem c5_hydrogen_branch_witness :
    (0:ℝ) ≤ pHabs exampleModel examplePhoton exampleCell ∧
      (0:ℝ) ≤ exampleCell.pHionValue ∧
      (reemit exampleModel examplePhoton exampleCell 0 0 0 0).1 = true ∧
      (reemit exampleModel examplePhoton exampleCell 0 0 0 0).2.ptype =
        PhotonType.diffuseHI ∧
      (reemit exampleModel examplePhoton exampleCell 0 0 0 0).2.energy =
        exampleModel.hLycSample exampleCell.temperature := by
  have h0 : (0:ℝ) ≤ pHabs exampleModel examplePhoton exampleCell := by
    rw [pHabs]
    norm_num [exampleModel, examplePhoton, exampleCell]
  have h2 : (0:ℝ) ≤ exampleCell.pHionValue := by
    norm_num [exampleCell]
  have h :=
    ((c5_hydrogen_branch exampleModel examplePhoton exampleCell
      0 0 0 0).2 h0).1 h2
  exact ⟨h0, h2, h.1, h.2.1, h.2.2⟩

/-- C6: evidence that the `p_He_em[3]` 2-photon-continuum sub-branch
does NOT behave identically to the `p_He_em[2]` branch: in the same
cell, the `p_He_em[2]` branch samples the He 2-photon continuum AT the
cell temperature, while the `p_He_em[3]` sub-branch calls the sampler
WITHOUT the temperature argument (PhotonSource.cpp line 391, despite
the "sample like above" comment), yielding a different frequency. -/
theorem c6_he2pc_missing_temperature :
    (reemit exampleModel examplePhoton exampleCell 1 (1/4) 0 0).2.energy =
        exampleModel.he2pcSampleAtT exampleCell.temperature ∧
      (reemit exampleModel examplePhoton exampleCell 1 (3/4) (1/2) 0).1 =
        true ∧
      (reemit exampleModel examplePhoton exampleCell
          1 (3/4) (1/2) 0).2.ptype = PhotonType.diffuseHeI ∧
      (reemit exampleModel examplePhoton exampleCell
          1 (3/4) (1/2) 0).2.energy = exampleModel.he2pcSampleDefault ∧
      exampleModel.he2pcSampleDefault ≠
        exampleModel.he2pcSampleAtT exampleCell.temperature := by
  have hpa : pHabs exampleModel examplePhoton exampleCell = 1/2 := by
    rw [pHabs]
    norm_num [exampleModel, examplePhoton, exampleCell]
  have hpo : pHots exampleCell = 1/78 := by
    rw [pHots]
    norm_num [exampleCell, Real.sqrt_one]
  refine ⟨?_, ?_, ?_, ?_, ?_⟩
  · rw [reemit, hpa]
    rw [if_neg (by norm_num), if_neg (by norm_num [exampleCell, exampleHeEm]),
      if_neg (by norm_num [exampleCell, exampleHeEm]),
      if_pos (by norm_num [exampleCell, exampleHeEm]),
      if_pos (by norm_num)]
    rfl
  · rw [reemit, hpa]
    rw [if_neg (by norm_num),
      if_neg (by norm_num [exampleCell, exampleHeEm]),
      if_neg (by norm_num [exampleCell, exampleHeEm]),
      if_neg (by norm_num [exampleCell, exampleHeEm]),
      if_pos (by norm_num [exampleCell, exampleHeEm]), hpo,
      if_neg (by norm_num), if_pos (by norm_num)]
  · rw [reemit, hpa]
    rw [if_neg (by norm_num),
      if_neg (by norm_num [exampleCell, exampleHeEm]),
      if_neg (by norm_num [exampleCell, exampleHeEm]),
      if_neg (by norm_num [exampleCell, exampleHeEm]),
      if_pos (by norm_num [exampleCell, exampleHeEm]), hpo,
      if_neg (by norm_num), if_pos (by norm_num)]
    rfl
  · rw [reemit, hpa]
    rw [if_neg (by norm_num),
      if_neg (by norm_num [exampleCell, exampleHeEm]),
      if_neg (by norm_num [exampleCell, exampleHeEm]),
      if_neg (by norm_num [exampleCell, exampleHeEm]),
      if_pos (by norm_num [exampleCell, exampleHeEm]), hpo,
      if_neg (by norm_num), if_pos (by norm_num)]
    rfl
  · norm_num [exampleModel, exampleCell]

/-- C10: whatever `reemit` decides, the photon's position and
statistical weight are unchanged; only type, frequency, direction and
the cached cross sections are (possibly) modified. -/
theorem c10_reemit_frame (ps : SourceModel) (photon : Photon)
    (cell : DensityValues) (u1 u2 u3 u4 : ℝ) :
    (reemit ps photon cell u1 u2 u3 u4).2.position = photon.position ∧
      (reemit ps photon cell u1 u2 u3 u4).2.weight = photon.weight := by
  unfold reemit finishReemit setCrossSections
  split_ifs <;> exact ⟨rfl, rfl⟩

end CMacIonize
